import Mathlib

/-!
Verification of the change-detection engine of the `hackathon` repository
(`backend/detect_change.py`, plus the pixel-to-geo helper of `backend/app.py`)
against its natural-language specification.

The Python source is shallowly embedded: numeric rasters become grids of
rationals, exceptions become `Except`, and calls into external libraries
(cv2, sklearn, base64) become explicit deterministic oracle parameters whose
outputs the source code consumes.  The control flow, arithmetic and data
handling of the Python functions themselves are translated line by line.
-/

set_option maxRecDepth 4000

namespace DetectChange

/-- A 2-D numeric array (numpy `float` raster plane), row major. -/
abbrev Grid := List (List ℚ)

/-- A 2-D boolean array: the 0/255 `uint8` anomaly mask, `true` ≙ 255. -/
abbrev BGrid := List (List Bool)

/-- `1e-6`, the epsilon guard of `compute_ndvi` / `compute_ndbi`
(`detect_change.py` lines 57 and 62); the float literal is idealized as the
exact rational it denotes. -/
def eps : ℚ := 1 / 1000000

/-- Elementwise combination of two equal-shaped 2-D arrays (numpy broadcasting
of a binary operation over two same-shape arrays). -/
def zipWith2D (f : ℚ → ℚ → ℚ) (a b : Grid) : Grid :=
  List.zipWith (List.zipWith f) a b

/-- Elementwise map over a 2-D array (numpy scalar broadcasting). -/
def gridMap (f : ℚ → ℚ) (a : Grid) : Grid :=
  a.map (List.map f)

/-- Entry of a 2-D array at row `i`, column `j`, if present. -/
def get2? (a : Grid) (i j : ℕ) : Option ℚ :=
  (a.get? i).bind (fun r => r.get? j)

/-- `compute_ndvi` (`detect_change.py` lines 56-57):
`(nir - red) / (nir + red + 1e-6)`, elementwise. -/
def compute_ndvi (nir red : Grid) : Grid :=
  zipWith2D (fun n r => (n - r) / (n + r + eps)) nir red

/-- `compute_ndbi` (`detect_change.py` lines 59-62): both bands are first
divided by `10000.0`, then `(swir - nir) / (swir + nir + 1e-6)` elementwise. -/
def compute_ndbi (nir swir : Grid) : Grid :=
  let nir2 := gridMap (fun x => x / 10000) nir
  let swir2 := gridMap (fun x => x / 10000) swir
  zipWith2D (fun n s => (s - n) / (s + n + eps)) nir2 swir2

/-- The vegetation-index formula exactly as the specification words it:
`(NIR − RED) / (NIR + RED + ε)` with `ε = 1e-6`. -/
def vegIndexSpec (nir red : ℚ) : ℚ :=
  (nir - red) / (nir + red + eps)

/-- The built-up-index formula exactly as the specification words it:
`(SWIR′ − NIR′) / (SWIR′ + NIR′ + ε)` where the primed bands are the inputs
divided by the fixed normalization constant `10000` and `ε = 1e-6`. -/
def builtUpIndexSpec (nir swir : ℚ) : ℚ :=
  ((swir / 10000) - (nir / 10000)) / ((swir / 10000) + (nir / 10000) + eps)

theorem get?_zipWith (f : ℚ → ℚ → ℚ) :
    ∀ (xs ys : List ℚ) (j : ℕ),
      (List.zipWith f xs ys).get? j =
        (xs.get? j).bind (fun a => (ys.get? j).map (fun b => f a b))
  | [], _, _ => by simp
  | _ :: _, [], _ => by simp
  | x :: xs, y :: ys, 0 => by simp
  | x :: xs, y :: ys, j + 1 => by
      simpa using get?_zipWith f xs ys j

theorem get?_zipWithRows (f : ℚ → ℚ → ℚ) :
    ∀ (a b : Grid) (i : ℕ),
      (List.zipWith (List.zipWith f) a b).get? i =
        (a.get? i).bind (fun r => (b.get? i).map (fun s => List.zipWith f r s))
  | [], _, _ => by simp
  | _ :: _, [], _ => by simp
  | r :: a, s :: b, 0 => by simp
  | r :: a, s :: b, i + 1 => by
      simpa using get?_zipWithRows f a b i

theorem get2?_zipWith2D (f : ℚ → ℚ → ℚ) (a b : Grid) (i j : ℕ)
    (x y : ℚ) (hx : get2? a i j = some x) (hy : get2? b i j = some y) :
    get2? (zipWith2D f a b) i j = some (f x y) := by
  unfold get2? at hx hy ⊢
  unfold zipWith2D
  rw [get?_zipWithRows]
  cases ha : a.get? i with
  | none => rw [ha] at hx; simp at hx
  | some r =>
      cases hb : b.get? i with
      | none => rw [hb] at hy; simp at hy
      | some s =>
          rw [ha] at hx
          rw [hb] at hy
          simp only [Option.some_bind] at hx hy
          simp only [ha, hb, Option.some_bind, Option.map_some']
          rw [get?_zipWith]
          rw [List.get?_eq_getElem?] at hx hy
          simp [hx, hy]

theorem get2?_gridMap (f : ℚ → ℚ) (a : Grid) (i j : ℕ) (x : ℚ)
    (hx : get2? a i j = some x) :
    get2? (gridMap f a) i j = some (f x) := by
  unfold get2? at hx ⊢
  unfold gridMap
  cases ha : a.get? i with
  | none => rw [ha] at hx; simp at hx
  | some r =>
      rw [ha] at hx
      simp only [Option.some_bind] at hx
      rw [List.get?_eq_getElem?] at ha hx
      simp [List.getElem?_map, ha, hx]

/-- Claim C5: for every pair of equal-shaped band arrays, the vegetation index
computed by `compute_ndvi` equals `(NIR − RED) / (NIR + RED + ε)` pixelwise,
and the built-up index computed by `compute_ndbi` equals
`(SWIR′ − NIR′) / (SWIR′ + NIR′ + ε)` pixelwise, where `SWIR′` and `NIR′` are
the input bands divided by `10000` and `ε = 1e-6`. -/
theorem ndvi_ndbi_pixelwise_formulas (nir red swir : Grid) (i j : ℕ)
    (vn vr vs : ℚ)
    (hn : get2? nir i j = some vn)
    (hr : get2? red i j = some vr)
    (hs : get2? swir i j = some vs) :
    get2? (compute_ndvi nir red) i j = some (vegIndexSpec vn vr) ∧
    get2? (compute_ndbi nir swir) i j = some (builtUpIndexSpec vn vs) := by
  constructor
  · unfold compute_ndvi vegIndexSpec
    exact get2?_zipWith2D _ _ _ _ _ _ _ hn hr
  · unfold compute_ndbi builtUpIndexSpec
    exact get2?_zipWith2D _ _ _ _ _ _ _
      (get2?_gridMap (fun x => x / 10000) nir i j vn hn)
      (get2?_gridMap (fun x => x / 10000) swir i j vs hs)

theorem ndvi_ndbi_pixelwise_formulas_witness :
    get2? (compute_ndvi [[2, 5]] [[1, 3]]) 0 1 = some (vegIndexSpec 5 3) ∧
    get2? (compute_ndbi [[2, 5]] [[4, 7]]) 0 1 = some (builtUpIndexSpec 5 7) :=
  ndvi_ndbi_pixelwise_formulas [[2, 5]] [[1, 3]] [[4, 7]] 0 1 5 3 7
    (by decide) (by decide) (by decide)

/-- A decoded raster: `cv2.imdecode` output, height × width × band.  The
band planes `img[:, :, k]` are listed in `chans`. -/
structure Img where
  chans : List Grid
deriving DecidableEq, Repr

/-- The `DetectionError` exception class of `detect_change.py` lines 22-23. -/
structure DetectionError where
  msg : String
deriving DecidableEq, Repr

/-- `tenacity.RetryError`: with the decorator's default configuration
(`reraise` not set), exhausting the stop condition raises `RetryError`
wrapping the last attempt's exception rather than re-raising it. -/
structure RetryError where
  last : DetectionError
deriving DecidableEq, Repr

/-- The body of `decode_image` (`detect_change.py` lines 27-36) for one
attempt.  The composite external call `base64.b64decode` / `np.frombuffer` /
`cv2.imdecode` is an oracle outcome: `none` covers both `img is None` and any
exception inside the `try` (every failure mode is wrapped into
`DetectionError`; there is no other classification). -/
def decode_once (outcome : Option Img) : Except DetectionError Img :=
  match outcome with
  | some img => .ok img
  | none => .error ⟨"Failed to decode image"⟩

/-- `tenacity.wait_exponential(multiplier, min, max)` evaluated for the
`n`-th completed attempt: the exponential term clamped into `[min, max]`
(`detect_change.py` line 25 instantiates `multiplier=1, min=2, max=10`). -/
def wait_exponential (multiplier mn mx : ℚ) (n : ℕ) : ℚ :=
  max mn (min (multiplier * 2 ^ n) mx)

/-- `decode_image` under its `@retry(stop=stop_after_attempt(3), ...)`
decorator (`detect_change.py` lines 25-36).  `att k` is the outcome of the
`k`-th decode attempt on the fixed input; since every failure inside an
attempt raises `DetectionError` and the policy retries exactly
`DetectionError`, each failed attempt is retried until the third.  After the
third failed attempt the decorator (no `reraise=True`) raises
`tenacity.RetryError` wrapping the last `DetectionError`.  Returns the final
result together with the number of attempts performed. -/
def decode_image (att : ℕ → Option Img) : Except RetryError Img × ℕ :=
  match decode_once (att 0) with
  | .ok img => (.ok img, 1)
  | .error _ =>
    match decode_once (att 1) with
    | .ok img => (.ok img, 2)
    | .error _ =>
      match decode_once (att 2) with
      | .ok img => (.ok img, 3)
      | .error e => (.error ⟨e⟩, 3)

/-- The waits (in seconds) slept between the attempts of `decode_image`,
per `wait_exponential(multiplier=1, min=2, max=10)`. -/
def decodeWaits (att : ℕ → Option Img) : List ℚ :=
  match decode_once (att 0) with
  | .ok _ => []
  | .error _ =>
    match decode_once (att 1) with
    | .ok _ => [wait_exponential 1 2 10 1]
    | .error _ => [wait_exponential 1 2 10 1, wait_exponential 1 2 10 2]

/-- A 1×1 three-band raster: a structurally invalid scene (fewer than the 5
bands the specification requires), which `cv2.imdecode` nevertheless decodes
happily. -/
def threeBandImg : Img := ⟨[[[0]], [[0]], [[0]]]⟩

/-- Claim C3, counterexample: the decoder performs no band-count (or
non-emptiness) validation at all.  A decode whose raster has only 3 bands is
returned successfully on the first attempt, refuting "either produces a
decoded raster that is non-empty with at least 5 bands or fails with
DecodeError". -/
theorem decode_no_band_validation_cex :
    (decode_image (fun _ => some threeBandImg) = (.ok threeBandImg, 1) ∧
      threeBandImg.chans.length = 3) ∧
    ¬ (∀ att img n, decode_image att = (.ok img, n) → 5 ≤ img.chans.length) := by
  refine ⟨⟨rfl, rfl⟩, fun h => ?_⟩
  have h3 := h (fun _ => some threeBandImg) threeBandImg 1 rfl
  have : threeBandImg.chans.length = 3 := rfl
  omega

/-- Claim C3, amended: the decoder returns whatever raster decoding yields,
with no validation of band count or emptiness; every failure inside an
attempt is a `DetectionError` and every `DetectionError` is retried — there
is no structural/transient distinction, so no input "fails immediately
without retry" — with at most 3 attempts and exponential backoff whose waits
all lie in `[2s, 10s]` and whose first wait is 2s; after the third failed
attempt the decorator raises `tenacity.RetryError` wrapping the last
`DetectionError` (not a `DetectionError` itself). -/
theorem decode_retry_policy_amended (att : ℕ → Option Img) :
    ((decode_image att).2 ≤ 3) ∧
    (∀ img, att 0 = some img → decode_image att = (.ok img, 1)) ∧
    (∀ img, att 0 = none → att 1 = some img → decode_image att = (.ok img, 2)) ∧
    (∀ img, att 0 = none → att 1 = none → att 2 = some img →
      decode_image att = (.ok img, 3)) ∧
    (att 0 = none → att 1 = none → att 2 = none →
      decode_image att = (.error ⟨⟨"Failed to decode image"⟩⟩, 3)) ∧
    (∀ w ∈ decodeWaits att, 2 ≤ w ∧ w ≤ 10) ∧
    (att 0 = none → (decodeWaits att).head? = some 2) := by
  refine ⟨?_, ?_, ?_, ?_, ?_, ?_, ?_⟩
  · unfold decode_image decode_once
    cases att 0 <;> cases att 1 <;> cases att 2 <;> simp
  · intro img h0
    unfold decode_image decode_once
    rw [h0]
  · intro img h0 h1
    unfold decode_image decode_once
    rw [h0, h1]
  · intro img h0 h1 h2
    unfold decode_image decode_once
    rw [h0, h1, h2]
  · intro h0 h1 h2
    unfold decode_image decode_once
    rw [h0, h1, h2]
  · intro w hw
    have w1 : wait_exponential 1 2 10 1 = 2 := by
      unfold wait_exponential; norm_num
    have w2 : wait_exponential 1 2 10 2 = 4 := by
      unfold wait_exponential; norm_num
    have hcases : decodeWaits att = [] ∨
        decodeWaits att = [2] ∨ decodeWaits att = [2, 4] := by
      unfold decodeWaits decode_once
      cases att 0 <;> cases att 1 <;> simp [w1, w2]
    rcases hcases with hc | hc | hc <;> rw [hc] at hw <;> simp at hw
    · rw [hw]; norm_num
    · rcases hw with hw | hw <;> rw [hw] <;> norm_num
  · intro h0
    unfold decodeWaits decode_once
    rw [h0]
    have w1 : wait_exponential 1 2 10 1 = 2 := by
      unfold wait_exponential; norm_num
    cases att 1 <;> simp [w1]

/-- Witness for the amended C3 theorem: a transiently failing decode (two
failures, then success) is retried and succeeds on the third attempt, its
waits are 2s then 4s — inside `[2, 10]`, starting at 2s. -/
theorem decode_retry_policy_amended_witness :
    decode_image (fun k => if k = 2 then some threeBandImg else none) =
      (.ok threeBandImg, 3) ∧
    (decodeWaits (fun k => if k = 2 then some threeBandImg else none)).head? =
      some 2 :=
  ⟨(decode_retry_policy_amended
      (fun k => if k = 2 then some threeBandImg else none)).2.2.2.1
        threeBandImg rfl rfl rfl,
   (decode_retry_policy_amended
      (fun k => if k = 2 then some threeBandImg else none)).2.2.2.2.2.2 rfl⟩

/-- One ORB match as consumed by `align_images`: its matcher distance and the
matched keypoint coordinates on either side. -/
structure Match where
  distance : ℚ
  src : ℚ × ℚ
  dst : ℚ × ℚ
deriving DecidableEq, Repr

/-- One external contour as consumed by the region loop: `cv2.contourArea`
of it, and its `cv2.boundingRect` as `x, y, w, h`. -/
structure Contour where
  area : ℚ
  x : ℕ
  y : ℕ
  w : ℕ
  h : ℕ
deriving DecidableEq, Repr

/-- The Python exceptions that can escape `detect_illegal_construction`. -/
inductive PyErr where
  /-- a `tenacity.RetryError` (wrapping the last `DetectionError`)
  propagating out of `decode_image` after retry exhaustion -/
  | retryError (last : DetectionError)
  /-- `cv2.error` from a malformed argument to a cv2 call -/
  | cvError (fn : String)
  /-- numpy `IndexError` from out-of-bounds indexing -/
  | indexError
deriving DecidableEq, Repr

/-- One point row of a cv2 point array: the `int32` coordinate pair `[x, y]`. -/
abbrev Pt := List ℤ

/-- The value appended to `polygons` for one contour: for each point `pt` of
the simplified contour, the two-element list `[pt[0], pt[3]]`
(`detect_change.py` line 130). -/
abbrev Polygon := List (List Pt)

/-- The deterministic behavior of the external libraries consumed by
`detect_illegal_construction` (cv2 and sklearn), threaded as explicit
parameters.  Each field stands for one call site of the source. -/
structure Oracles where
  /-- `base64.b64decode` / `np.frombuffer` / `cv2.imdecode` composite,
  `none` when decoding fails (lines 28-31) -/
  imdecode : String → Option Img
  /-- `cv2.resize(img, (512, 512))` (line 39) -/
  resize : Img → Img
  /-- `cv2.GaussianBlur(img, (3,3), 0)` (lines 79-80) -/
  gaussianBlur : Img → Img
  /-- `ORB detectAndCompute` on both images followed by
  `BFMatcher(NORM_HAMMING, crossCheck=True).match` (lines 43-47) -/
  orbMatches : Img → Img → List Match
  /-- `cv2.morphologyEx(mask, MORPH_CLOSE, ones((5,5)))` (lines 109-110) -/
  morphClose : BGrid → BGrid
  /-- `cv2.findContours(mask, RETR_EXTERNAL, CHAIN_APPROX_SIMPLE)` (line 111),
  each contour abstracted to its area and bounding rectangle -/
  findContours : BGrid → List Contour
  /-- `cv2.arcLength(c, True)` (line 129) -/
  arcLength : Contour → ℚ
  /-- `cv2.approxPolyDP(c, tol, closed=True)` (line 129), an `(N, 1, 2)`
  int array: a list of `N` point rows -/
  approxPolyDP : Contour → ℚ → List (List Pt)
  /-- `IsolationForest(contamination, random_state).fit(features)` then
  `decision_function(features)` (lines 102-104): the per-sample anomaly
  scores, aligned with `features` -/
  isoScores : ℚ → ℕ → List (ℚ × ℚ) → List ℚ

/-- Insertion into a list sorted by ascending match distance. -/
def sortInsert (m : Match) : List Match → List Match
  | [] => [m]
  | x :: xs => if m.distance ≤ x.distance then m :: x :: xs else x :: sortInsert m xs

/-- `sorted(matches, key=lambda x: x.distance)` (`detect_change.py` line 48). -/
def sortByDistance (l : List Match) : List Match :=
  l.foldr sortInsert []

/-- `resize_images` (`detect_change.py` lines 38-39). -/
def resize_images (O : Oracles) (img1 img2 : Img) : Img × Img :=
  (O.resize img1, O.resize img2)

/-- `align_images` (`detect_change.py` lines 41-54).  With fewer than 4
matches the target raster `img2` is returned unchanged (lines 49-50).
Otherwise (lines 51-54) the source selects the top-4 matched points, fits a
homography, and calls
`cv2.warpPerspective(img2, M, (img1.shape[1], img1.shape))`: the `dsize`
argument pairs a width with the whole shape tuple instead of a height, which
cv2 rejects, so this branch raises `cv2.error`. -/
def align_images (O : Oracles) (img1 img2 : Img) : Except PyErr Img :=
  let ms := sortByDistance (O.orbMatches img1 img2)
  if ms.length < 4 then .ok img2
  else .error (.cvError "warpPerspective")

/-- Band-plane extraction `img[:, :, k]` (`detect_change.py` lines 83-88);
numpy raises `IndexError` when the band index is out of range. -/
def getChan (img : Img) (k : ℕ) : Except PyErr Grid :=
  match img.chans.get? k with
  | some g => .ok g
  | none => .error .indexError

/-- `decode_image` as invoked from the detection pipeline: the decoder oracle
is deterministic for a fixed input, so every retry repeats the same outcome. -/
def decodeInPipeline (O : Oracles) (s : String) : Except PyErr Img :=
  match (decode_image (fun _ => O.imdecode s)).1 with
  | .ok img => .ok img
  | .error e => .error (.retryError e.last)

/-- The six extracted band planes (`detect_change.py` lines 83-88):
NIR = band 3, RED = band 2, SWIR = band 4, of each scene. -/
structure Bands where
  nirOld : Grid
  redOld : Grid
  swirOld : Grid
  nirNew : Grid
  redNew : Grid
  swirNew : Grid
deriving DecidableEq, Repr

/-- Lines 71-88 of `detect_change.py`: decode both scenes, resize, align the
new scene onto the old, blur both, and extract the NIR/RED/SWIR planes.
(The `if old_img is None or new_img is None` check at line 73 is dead code:
`decode_image` raises instead of returning `None`.  `os.makedirs` is an
artifact-directory side effect with no bearing on the result.) -/
def stage1 (O : Oracles) (old_b64 new_b64 : String) : Except PyErr Bands := do
  let old_img ← decodeInPipeline O old_b64
  let new_img ← decodeInPipeline O new_b64
  let p := resize_images O old_img new_img
  let new_a ← align_images O p.1 p.2
  let old_g := O.gaussianBlur p.1
  let new_g := O.gaussianBlur new_a
  let nirOld ← getChan old_g 3
  let redOld ← getChan old_g 2
  let swirOld ← getChan old_g 4
  let nirNew ← getChan new_g 3
  let redNew ← getChan new_g 2
  let swirNew ← getChan new_g 4
  pure ⟨nirOld, redOld, swirOld, nirNew, redNew, swirNew⟩

/-- Elementwise subtraction of two equal-shaped 2-D arrays. -/
def gridSub (a b : Grid) : Grid :=
  zipWith2D (fun u v => u - v) a b

/-- `ndvi_diff = ndvi_new - ndvi_old` (`detect_change.py` lines 91-97). -/
def ndviDiffOf (b : Bands) : Grid :=
  gridSub (compute_ndvi b.nirNew b.redNew) (compute_ndvi b.nirOld b.redOld)

/-- `ndbi_diff = ndbi_new - ndbi_old` (`detect_change.py` lines 93-98). -/
def ndbiDiffOf (b : Bands) : Grid :=
  gridSub (compute_ndbi b.nirNew b.swirNew) (compute_ndbi b.nirOld b.swirOld)

/-- `np.stack([ndvi_diff.flatten(), ndbi_diff.flatten()], axis=1)`
(`detect_change.py` line 99): the per-pixel 2-feature vectors. -/
def featuresOf (b : Bands) : List (ℚ × ℚ) :=
  List.zip (ndviDiffOf b).flatten (ndbiDiffOf b).flatten

/-- `clf.decision_function(features)` after
`IsolationForest(contamination=0.05, random_state=42).fit(features)`
(`detect_change.py` lines 102-104). -/
def scoresOf (O : Oracles) (b : Bands) : List ℚ :=
  O.isoScores (5 / 100) 42 (featuresOf b)

/-- `clf.predict(features)` (`detect_change.py` line 105), expressed through
the documented sklearn relation between `predict` and `decision_function`:
the prediction is `-1` (outlier, encoded `true` here) exactly when the
decision-function score is negative. -/
def predsOf (O : Oracles) (b : Bands) : List Bool :=
  (scoresOf O b).map (fun s => decide (s < 0))

/-- `flat.reshape(shape)` for a flat list against a template's row lengths. -/
def reshapeRows : List ℕ → List Bool → BGrid
  | [], _ => []
  | n :: ns, xs => xs.take n :: reshapeRows ns (xs.drop n)

/-- `anomaly_mask = (preds.reshape(ndvi_diff.shape) == -1).astype(np.uint8) * 255`
(`detect_change.py` line 106), `true` ≙ 255. -/
def rawMaskOf (O : Oracles) (b : Bands) : BGrid :=
  reshapeRows ((ndviDiffOf b).map List.length) (predsOf O b)

/-- The anomaly mask after morphological closing (`detect_change.py`
lines 109-110). -/
def maskOf (O : Oracles) (b : Bands) : BGrid :=
  O.morphClose (rawMaskOf O b)

/-- `cv2.findContours` on the closed mask (`detect_change.py` line 111). -/
def contoursOf (O : Oracles) (b : Bands) : List Contour :=
  O.findContours (maskOf O b)

/-- Numpy indexing `arr[i]` along the first axis: `IndexError` when out of
bounds. -/
def npGet {α : Type} (l : List α) (i : ℕ) : Except PyErr α :=
  match l.get? i with
  | some v => .ok v
  | none => .error .indexError

/-- `[[pt[0], pt[3]] for pt in approx]` (`detect_change.py` line 130).  Each
`pt` is one `(1, 2)` point row of the `approxPolyDP` output, so `pt[0]` is
its single `[x, y]` pair while `pt[3]` indexes position 3 of that 1-element
first axis — an `IndexError` whenever the loop body runs on cv2-shaped data. -/
def polygonOf (approx : List (List Pt)) : Except PyErr Polygon :=
  approx.mapM (fun pt => do
    let a ← npGet pt 0
    let b ← npGet pt 3
    pure [a, b])

/-- The running state of the contour loop (`detect_change.py` lines 118-130):
the accumulated overall bounding box and the polygons collected so far. -/
structure RegionAcc where
  xMin : ℕ
  yMin : ℕ
  xMax : ℕ
  yMax : ℕ
  polygons : List Polygon
deriving DecidableEq, Repr

/-- `x_min, y_min, x_max, y_max = 512, 512, 0, 0` and `polygons = []`
(`detect_change.py` lines 118-119). -/
def regionInit : RegionAcc := ⟨512, 512, 0, 0, []⟩

/-- One iteration of the contour loop (`detect_change.py` lines 120-130):
skip contours of area below 50, otherwise extend the overall bounding box by
the contour's bounding rectangle and append its simplified polygon
(tolerance `0.01 * arcLength`). -/
def regionStep (O : Oracles) (st : RegionAcc) (c : Contour) :
    Except PyErr RegionAcc :=
  if c.area < 50 then .ok st
  else
    match polygonOf (O.approxPolyDP c ((1 / 100) * O.arcLength c)) with
    | .error e => .error e
    | .ok poly =>
        .ok ⟨min c.x st.xMin, min c.y st.yMin, max (c.x + c.w) st.xMax,
             max (c.y + c.h) st.yMax, st.polygons ++ [poly]⟩

/-- The whole contour loop (`detect_change.py` lines 118-130), from a given
running state; an exception in an iteration aborts the loop. -/
def region_fold (O : Oracles) : List Contour → RegionAcc → Except PyErr RegionAcc
  | [], st => .ok st
  | c :: cs, st =>
    match regionStep O st c with
    | .error e => .error e
    | .ok st2 => region_fold O cs st2

/-- Arithmetic mean, `np.mean`. -/
def qMean (l : List ℚ) : ℚ := l.sum / l.length

/-- Round-half-to-even on rationals: the tie-breaking used by Python's
builtin `round` (and numpy) on floats. -/
def roundHalfEven (x : ℚ) : ℤ :=
  if x - ⌊x⌋ = 1 / 2 then (if Even ⌊x⌋ then ⌊x⌋ else ⌊x⌋ + 1) else round x

/-- Python `round(x, 2)`. -/
def pyRound2 (x : ℚ) : ℚ := (roundHalfEven (x * 100) : ℚ) / 100

/-- `confidence = np.mean(scores[preds == -1]) if np.any(preds == -1) else 0`
followed by `round(confidence, 2)` (`detect_change.py` lines 140 and 147).
Since a prediction is `-1` exactly when its score is negative,
`scores[preds == -1]` is the sublist of strictly negative scores. -/
def confidenceOf (scores : List ℚ) : ℚ :=
  let neg := scores.filter (fun s => decide (s < 0))
  pyRound2 (if neg.isEmpty then 0 else qMean neg)

/-- `np.mean` of a 2-D array. -/
def gridMean (g : Grid) : ℚ := qMean g.flatten

/-- The timestamp-independent payload of a detection outcome. -/
inductive Core2 where
  | noDet
  | det (bbox : ℕ × ℕ × ℕ × ℕ) (confidence : ℚ) (polygons : List Polygon)
      (ndviDiffMean ndbiDiffMean : ℚ)
deriving DecidableEq, Repr

/-- Lines 91-151 of `detect_change.py` up to (but excluding) the
timestamp/artifact-path fields: indices, deltas, scoring, mask, contours,
region loop, degeneracy check, confidence and the whole-scene means.
`cv2.imwrite` of the mask (line 137) is an artifact side effect with no
bearing on the returned result and is omitted. -/
def stage2 (O : Oracles) (b : Bands) : Except PyErr Core2 :=
  let scores := scoresOf O b
  let contours := contoursOf O b
  if contours.isEmpty then .ok .noDet
  else
    match region_fold O contours regionInit with
    | .error e => .error e
    | .ok acc =>
      if acc.xMin ≥ acc.xMax ∨ acc.yMin ≥ acc.yMax then .ok .noDet
      else .ok (.det (acc.xMin, acc.yMin, acc.xMax, acc.yMax)
          (confidenceOf scores) acc.polygons
          (gridMean (ndviDiffOf b)) (gridMean (ndbiDiffOf b)))

/-- The detection result dictionary: either `{"detected": False}` (an empty
region list) or the full `detected=True` payload of
`detect_change.py` lines 142-151. -/
inductive DetectResult where
  | noDetection
  | detection (bbox : ℕ × ℕ × ℕ × ℕ) (maskPath : String) (timestamp : String)
      (confidence : ℚ) (polygons : List Polygon) (ndviDiffMean ndbiDiffMean : ℚ)
deriving DecidableEq, Repr

/-- The process-wide `mask_cache` (`detect_change.py` line 20) within one
TTL window: an association list from fingerprint to stored result.  (TTL
expiry and capacity eviction only remove entries; they are modelled by
starting from a cache that simply lacks the expired entries.) -/
abbrev Cache := List (String × DetectResult)

/-- `cache_key = f"{old_b64[:50]}_{new_b64[:50]}"`
(`detect_change.py` line 65): the partial-content fingerprint. -/
def cacheKey (old_b64 new_b64 : String) : String :=
  old_b64.take 50 ++ "_" ++ new_b64.take 50

/-- The timestamp-independent part of a `detect_illegal_construction` call. -/
inductive CoreOut where
  | err (e : PyErr)
  | cached (r : DetectResult)
  | noDet
  | det (bbox : ℕ × ℕ × ℕ × ℕ) (confidence : ℚ) (polygons : List Polygon)
      (ndviDiffMean ndbiDiffMean : ℚ)
deriving DecidableEq, Repr

/-- `detect_illegal_construction` (`detect_change.py` lines 64-154) except
the timestamp-dependent fields: cache probe (lines 65-68), then the decode /
align / band stage, then the scoring / region stage.  The second component
counts invocations of the anomaly scorer (`clf.fit`, line 103): `0` on a
cache hit or a failure before scoring, `1` once scoring is reached. -/
def detectCore (O : Oracles) (cache : Cache) (old_b64 new_b64 : String) :
    CoreOut × ℕ :=
  match List.lookup (cacheKey old_b64 new_b64) cache with
  | some r => (.cached r, 0)
  | none =>
    match stage1 O old_b64 new_b64 with
    | .error e => (.err e, 0)
    | .ok bands =>
      match stage2 O bands with
      | .error e => (.err e, 1)
      | .ok .noDet => (.noDet, 1)
      | .ok (.det bb cf pl nm bm) => (.det bb cf pl nm bm, 1)

deriving instance DecidableEq for Except

/-- The observable outcome of one `detect_illegal_construction` call: the
returned value (or escaped exception), the cache state after the call, and
how many times the anomaly scorer was fitted during the call. -/
structure DetectRun where
  result : Except PyErr DetectResult
  cache : Cache
  scorerCalls : ℕ
deriving DecidableEq, Repr

/-- `datetime.utcnow().strftime("%Y%m%d_%H%M%S")` for an abstract clock
reading `t`. -/
def timestampStr (t : ℕ) : String := toString t

/-- `detect_illegal_construction` (`detect_change.py` lines 64-154).  `cache`
is the current `mask_cache` contents and `t` the wall-clock reading used for
the timestamp (line 135).  On the detected path the result is stored under
the fingerprint (line 152); the `detected=False` returns at lines 115 and 133
do not store. -/
def detect_illegal_construction (O : Oracles) (cache : Cache) (t : ℕ)
    (old_b64 new_b64 : String) : DetectRun :=
  match detectCore O cache old_b64 new_b64 with
  | (.err e, k) => ⟨.error e, cache, k⟩
  | (.cached r, k) => ⟨.ok r, cache, k⟩
  | (.noDet, k) => ⟨.ok .noDetection, cache, k⟩
  | (.det bb cf pl nm bm, k) =>
    let ts := timestampStr t
    let r := DetectResult.detection bb ("static/masks/mask_" ++ ts ++ ".png")
      ts cf pl nm bm
    ⟨.ok r, (cacheKey old_b64 new_b64, r) :: cache, k⟩

/-- The value held by one slot of the gathered batch.  Calling the
`async def` `detect_illegal_construction` inside the `asyncio.to_thread`
worker returns an un-awaited coroutine object capturing the call's
arguments — the function body does not run. -/
inductive BatchSlot where
  | coroutine (old_b64 new_b64 : String)
deriving DecidableEq, Repr

/-- `batch_detect` (`detect_change.py` lines 156-158): one
`asyncio.to_thread` task per zipped pair, collected positionally by
`asyncio.gather(..., return_exceptions=True)`.  Because
`detect_illegal_construction` is an `async def` (line 64), the call executed
inside each worker thread merely constructs a coroutine object; every task
completes normally with that object, so each gathered slot holds the
un-awaited coroutine of its pair — never a detection result and never a
recorded exception — and no pair's pipeline executes. -/
def batch_detect (old_b64s new_b64s : List String) : List BatchSlot :=
  (old_b64s.zip new_b64s).map (fun p => .coroutine p.1 p.2)

/-- A blank 1×1 five-band raster (all-zero reflectances). -/
def blankImg : Img := ⟨[[[0]], [[0]], [[0]], [[0]], [[0]]]⟩

/-- Library behavior for a featureless blank-scene run: decoding always
yields `blankImg`, ORB finds no matchable features, the anomaly scorer finds
nothing anomalous and no contours exist. -/
def trivialOracles : Oracles :=
  ⟨fun _ => some blankImg, id, id, fun _ _ => [], id, fun _ => [],
   fun _ => 0, fun _ _ => [], fun _ _ fs => fs.map (fun _ => 0)⟩

/-- Library behavior for a run with one strong anomaly: every pixel scores
`-1` (anomalous), one contour of area 100 with bounding rectangle
`(10, 10, 20, 20)` survives, and — unlike real cv2, whose `approxPolyDP`
point rows hold a single coordinate pair — the simplified contour's point
rows have four entries, so that the source's `pt[3]` indexing succeeds and
the detection branch is reachable. -/
def detOracles : Oracles :=
  ⟨fun _ => some blankImg, id, id, fun _ _ => [], id,
   fun _ => [⟨100, 10, 10, 20, 20⟩], fun _ => 40,
   fun _ _ => [[[0, 0], [0, 0], [0, 0], [1, 1]]],
   fun _ _ fs => fs.map (fun _ => -1)⟩

/-- Library behavior identical to `detOracles` except that `approxPolyDP`
returns its real cv2 shape: an `(N, 1, 2)` array whose point rows are
1-element lists, on which the source's `pt[3]` raises `IndexError`. -/
def cvOracles : Oracles :=
  ⟨fun _ => some blankImg, id, id, fun _ _ => [], id,
   fun _ => [⟨100, 10, 10, 20, 20⟩], fun _ => 40,
   fun _ _ => [[[5, 6]]],
   fun _ _ fs => fs.map (fun _ => -1)⟩

theorem sortInsert_length (m : Match) :
    ∀ l : List Match, (sortInsert m l).length = l.length + 1
  | [] => rfl
  | x :: xs => by
      unfold sortInsert
      split
      · simp
      · simp [sortInsert_length m xs]

theorem sortByDistance_length (l : List Match) :
    (sortByDistance l).length = l.length := by
  induction l with
  | nil => rfl
  | cons x xs ih =>
      unfold sortByDistance at ih ⊢
      simp [List.foldr, sortInsert_length, ih]

theorem align_images_passthrough (O : Oracles) (img1 img2 : Img)
    (h : (O.orbMatches img1 img2).length < 4) :
    align_images O img1 img2 = .ok img2 := by
  unfold align_images
  simp only [sortByDistance_length]
  rw [if_pos h]

theorem region_fold_small (O : Oracles) :
    ∀ (cs : List Contour) (st : RegionAcc), (∀ c ∈ cs, c.area < 50) →
      region_fold O cs st = .ok st
  | [], _, _ => rfl
  | c :: cs, st, h => by
      unfold region_fold regionStep
      rw [if_pos (h c (List.mem_cons_self c cs))]
      exact region_fold_small O cs st (fun c2 hc2 => h c2 (List.mem_cons_of_mem c hc2))

theorem region_fold_bounds (O : Oracles) :
    ∀ (cs : List Contour) (st acc : RegionAcc),
      (∀ c ∈ cs, c.x + c.w ≤ 512 ∧ c.y + c.h ≤ 512) →
      st.xMax ≤ 512 → st.yMax ≤ 512 →
      region_fold O cs st = .ok acc → acc.xMax ≤ 512 ∧ acc.yMax ≤ 512
  | [], st, acc, _, hx, hy, h => by
      unfold region_fold at h
      cases h
      exact ⟨hx, hy⟩
  | c :: cs, st, acc, hb, hx, hy, h => by
      have hbc := hb c (List.mem_cons_self c cs)
      have hbs : ∀ c2 ∈ cs, c2.x + c2.w ≤ 512 ∧ c2.y + c2.h ≤ 512 :=
        fun c2 hc2 => hb c2 (List.mem_cons_of_mem c hc2)
      unfold region_fold regionStep at h
      by_cases hsm : c.area < 50
      · rw [if_pos hsm] at h
        exact region_fold_bounds O cs st acc hbs hx hy h
      · rw [if_neg hsm] at h
        cases hpoly : polygonOf (O.approxPolyDP c (1 / 100 * O.arcLength c)) with
        | error e => rw [hpoly] at h; cases h
        | ok poly =>
            rw [hpoly] at h
            refine region_fold_bounds O cs _ acc hbs ?_ ?_ h
            · exact max_le hbc.1 hx
            · exact max_le hbc.2 hy

theorem roundHalfEven_nonpos (x : ℚ) (hx : x ≤ 0) : roundHalfEven x ≤ 0 := by
  unfold roundHalfEven
  split
  · rename_i htie
    have hfl : (⌊x⌋ : ℚ) = x - 1 / 2 := by linarith
    have hlt : (⌊x⌋ : ℚ) < 0 := by rw [hfl]; linarith
    have hfl2 : ⌊x⌋ < 0 := by exact_mod_cast hlt
    split <;> omega
  · rw [round_eq]
    have h2 : ⌊x + 1 / 2⌋ ≤ ⌊(1 : ℚ) / 2⌋ := Int.floor_le_floor (by linarith)
    have h3 : ⌊(1 : ℚ) / 2⌋ = 0 := by norm_num
    omega

theorem pyRound2_nonpos (x : ℚ) (hx : x ≤ 0) : pyRound2 x ≤ 0 := by
  unfold pyRound2
  have h1 : roundHalfEven (x * 100) ≤ 0 := roundHalfEven_nonpos _ (by linarith)
  have h2 : ((roundHalfEven (x * 100) : ℤ) : ℚ) ≤ 0 := by exact_mod_cast h1
  linarith

theorem qMean_nonpos (l : List ℚ) (h : ∀ a ∈ l, a ≤ 0) : qMean l ≤ 0 := by
  unfold qMean
  have hsum : l.sum ≤ 0 := by
    induction l with
    | nil => simp
    | cons a as ih =>
        have ha := h a (List.mem_cons_self a as)
        have := ih (fun b hb => h b (List.mem_cons_of_mem a hb))
        simp only [List.sum_cons]
        linarith
  have hlen : (0 : ℚ) ≤ (l.length : ℚ) := by positivity
  exact div_nonpos_iff.mpr (Or.inr ⟨hsum, hlen⟩)

/-- The value `round(np.mean(scores[preds == -1]), 2) if any else 0` is never
positive: the averaged scores are exactly the strictly negative ones. -/
theorem confidenceOf_nonpos (scores : List ℚ) : confidenceOf scores ≤ 0 := by
  unfold confidenceOf
  apply pyRound2_nonpos
  split
  · exact le_refl 0
  · apply qMean_nonpos
    intro a ha
    have hmem := List.mem_filter.mp ha
    have := of_decide_eq_true hmem.2
    linarith

theorem stage2_noDet_of_filtered (O : Oracles) (b : Bands)
    (hsmall : (∀ c ∈ contoursOf O b, c.area < 50) ∨
      (∃ acc, region_fold O (contoursOf O b) regionInit = .ok acc ∧
        (acc.xMin ≥ acc.xMax ∨ acc.yMin ≥ acc.yMax))) :
    stage2 O b = .ok .noDet := by
  simp only [stage2]
  by_cases hemp : (contoursOf O b).isEmpty
  · rw [if_pos hemp]
  · rw [if_neg hemp]
    rcases hsmall with hall | ⟨acc, hrf, hdeg⟩
    · rw [region_fold_small O _ _ hall]
      exact if_pos (Or.inl (Nat.zero_le 512))
    · rw [hrf]
      exact if_pos hdeg

theorem stage2_det_inv (O : Oracles) (b : Bands) (bb : ℕ × ℕ × ℕ × ℕ)
    (cf : ℚ) (pl : List Polygon) (nm bm : ℚ)
    (h : stage2 O b = .ok (.det bb cf pl nm bm)) :
    cf = confidenceOf (scoresOf O b) ∧
    ∃ acc, region_fold O (contoursOf O b) regionInit = .ok acc ∧
      ¬(acc.xMin ≥ acc.xMax ∨ acc.yMin ≥ acc.yMax) ∧
      bb = (acc.xMin, acc.yMin, acc.xMax, acc.yMax) := by
  simp only [stage2] at h
  split at h
  · simp at h
  · split at h
    · simp at h
    · rename_i acc heq
      split at h
      · simp at h
      · rename_i hdeg
        simp only [Except.ok.injEq, Core2.det.injEq] at h
        obtain ⟨hbb, hcf, _, _, _⟩ := h
        exact ⟨hcf.symm, acc, heq, hdeg, hbb.symm⟩

theorem detect_hit (O : Oracles) (cache : Cache) (t : ℕ) (o n : String)
    (r : DetectResult) (h : List.lookup (cacheKey o n) cache = some r) :
    detect_illegal_construction O cache t o n = ⟨.ok r, cache, 0⟩ := by
  unfold detect_illegal_construction detectCore
  rw [h]

theorem detect_miss_err (O : Oracles) (cache : Cache) (t : ℕ) (o n : String)
    (e : PyErr) (hm : List.lookup (cacheKey o n) cache = none)
    (hs : stage1 O o n = .error e) :
    detect_illegal_construction O cache t o n = ⟨.error e, cache, 0⟩ := by
  unfold detect_illegal_construction detectCore
  rw [hm, hs]

theorem detect_miss_stage2_err (O : Oracles) (cache : Cache) (t : ℕ)
    (o n : String) (b : Bands) (e : PyErr)
    (hm : List.lookup (cacheKey o n) cache = none)
    (hs : stage1 O o n = .ok b) (h2 : stage2 O b = .error e) :
    detect_illegal_construction O cache t o n = ⟨.error e, cache, 1⟩ := by
  unfold detect_illegal_construction detectCore
  simp [hm, hs, h2]

theorem detect_miss_noDet (O : Oracles) (cache : Cache) (t : ℕ)
    (o n : String) (b : Bands)
    (hm : List.lookup (cacheKey o n) cache = none)
    (hs : stage1 O o n = .ok b) (h2 : stage2 O b = .ok .noDet) :
    detect_illegal_construction O cache t o n = ⟨.ok .noDetection, cache, 1⟩ := by
  unfold detect_illegal_construction detectCore
  simp [hm, hs, h2]

theorem detect_miss_det (O : Oracles) (cache : Cache) (t : ℕ)
    (o n : String) (b : Bands) (bb : ℕ × ℕ × ℕ × ℕ) (cf : ℚ)
    (pl : List Polygon) (nm bm : ℚ)
    (hm : List.lookup (cacheKey o n) cache = none)
    (hs : stage1 O o n = .ok b)
    (h2 : stage2 O b = .ok (.det bb cf pl nm bm)) :
    detect_illegal_construction O cache t o n =
      ⟨.ok (DetectResult.detection bb
          ("static/masks/mask_" ++ timestampStr t ++ ".png") (timestampStr t)
          cf pl nm bm),
       (cacheKey o n, DetectResult.detection bb
          ("static/masks/mask_" ++ timestampStr t ++ ".png") (timestampStr t)
          cf pl nm bm) :: cache, 1⟩ := by
  unfold detect_illegal_construction detectCore
  simp [hm, hs, h2]

/-- The band planes extracted from a pair of blank scenes. -/
def blankBands : Bands := ⟨[[0]], [[0]], [[0]], [[0]], [[0]], [[0]]⟩

theorem roundHalfEven_intCast (z : ℤ) : roundHalfEven ((z : ℤ) : ℚ) = z := by
  unfold roundHalfEven
  rw [Int.floor_intCast]
  rw [if_neg (by norm_num)]
  exact round_intCast z

theorem pyRound2_negOne : pyRound2 (-1) = -1 := by
  unfold pyRound2
  rw [show ((-1 : ℚ) * 100) = (((-100 : ℤ) : ℤ) : ℚ) by norm_num,
    roundHalfEven_intCast]
  norm_num

theorem confidenceOf_negOne : confidenceOf [-1] = -1 := by
  have step : confidenceOf [-1] = pyRound2 (-1) := by
    unfold confidenceOf
    norm_num [qMean]
  rw [step, pyRound2_negOne]

/-- The complete outcome of the `detOracles` run: the detection branch is
reached and returns confidence `-1`. -/
theorem detect_detOracles_result :
    (detect_illegal_construction detOracles [] 0 "o" "n").result =
      .ok (.detection (10, 10, 30, 30) "static/masks/mask_0.png" "0" (-1)
        [[[[0, 0], [1, 1]]]] 0 0) := by
  have h2 : stage2 detOracles blankBands =
      .ok (.det (10, 10, 30, 30)
        (confidenceOf (scoresOf detOracles blankBands))
        [[[[0, 0], [1, 1]]]] (gridMean (ndviDiffOf blankBands))
        (gridMean (ndbiDiffOf blankBands))) := rfl
  have hsc : scoresOf detOracles blankBands = [-1] := by decide
  have hcf : confidenceOf (scoresOf detOracles blankBands) = -1 := by
    rw [hsc, confidenceOf_negOne]
  have e1 : ndviDiffOf blankBands = [[0]] := by
    norm_num [ndviDiffOf, blankBands, gridSub, compute_ndvi, zipWith2D, eps]
  have e2 : ndbiDiffOf blankBands = [[0]] := by
    norm_num [ndbiDiffOf, blankBands, gridSub, compute_ndbi, zipWith2D,
      gridMap, eps]
  have hnm : gridMean (ndviDiffOf blankBands) = 0 := by
    rw [e1]; norm_num [gridMean, qMean]
  have hbm : gridMean (ndbiDiffOf blankBands) = 0 := by
    rw [e2]; norm_num [gridMean, qMean]
  rw [detect_miss_det detOracles [] 0 "o" "n" blankBands (10, 10, 30, 30)
    (confidenceOf (scoresOf detOracles blankBands)) [[[[0, 0], [1, 1]]]]
    (gridMean (ndviDiffOf blankBands)) (gridMean (ndbiDiffOf blankBands))
    rfl rfl h2]
  rw [hcf, hnm, hbm]
  rfl

/-- Library behavior identical to `cvOracles` (real cv2 `(N, 1, 2)`
`approxPolyDP` point rows) for a second anomalous scene: every pixel scored
`-1` and one surviving contour of area 60 with bounding rectangle
`(5, 6, 7, 8)`. -/
def cvOracles2 : Oracles :=
  ⟨fun _ => some blankImg, id, id, fun _ _ => [], id,
   fun _ => [⟨60, 5, 6, 7, 8⟩], fun _ => 30,
   fun _ _ => [[[2, 3]]],
   fun _ _ fs => fs.map (fun _ => -1)⟩

/-- Claim C1: the confidence bound cannot be exhibited by the code.  On a run
whose mask produces a surviving contour — the only path that would carry a
confidence — `detect` raises `IndexError` at the polygon step (line 130,
`pt[3]` on a 1-element cv2 point row) before any result is built, so no
returned result ever carries a confidence; and the confidence formula of
lines 140/147 (the 2-decimal rounding of the mean of the strictly negative
anomaly scores, 0 when none are flagged) is nonpositive for every possible
score vector, so a returned confidence could lie in `[0, 1]` only at the
boundary value 0. -/
theorem confidence_never_returned_and_nonpositive :
    (detect_illegal_construction cvOracles2 [] 0 "p" "q").result =
      .error .indexError ∧
    (∀ scores : List ℚ, confidenceOf scores ≤ 0) :=
  ⟨rfl, confidenceOf_nonpos⟩

/-- Claim C2: for every run whose anomaly mask yields no contour of area at
or above the 50 px² threshold (in particular an empty contour list), or whose
accumulated overall bounding box ends up degenerate (min ≥ max on either
axis), `detect` returns `detected=False` with an empty region list, as a
normal return value rather than an exception. -/
theorem area_filtered_mask_yields_no_detection (O : Oracles) (cache : Cache)
    (t : ℕ) (o n : String) (b : Bands)
    (hm : List.lookup (cacheKey o n) cache = none)
    (hs1 : stage1 O o n = .ok b)
    (hsmall : (∀ c ∈ contoursOf O b, c.area < 50) ∨
      (∃ acc, region_fold O (contoursOf O b) regionInit = .ok acc ∧
        (acc.xMin ≥ acc.xMax ∨ acc.yMin ≥ acc.yMax))) :
    (detect_illegal_construction O cache t o n).result = .ok .noDetection := by
  rw [detect_miss_noDet O cache t o n b hm hs1
    (stage2_noDet_of_filtered O b hsmall)]

theorem area_filtered_mask_yields_no_detection_witness :
    (detect_illegal_construction trivialOracles [] 0 "o" "n").result =
      .ok .noDetection :=
  area_filtered_mask_yields_no_detection trivialOracles [] 0 "o" "n"
    blankBands rfl rfl (Or.inl (by decide))

/-- Claim C4, counterexample: a pair with fewer than 4 ORB matches (here:
none at all) on which `detect` nevertheless raises: alignment is indeed
skipped, but one anomalous contour survives the area filter and the polygon
step's `pt[3]` indexing of cv2-shaped point rows raises `IndexError`, so
`detect` does not complete without error. -/
theorem alignment_fallback_cex :
    (cvOracles.orbMatches blankImg blankImg).length < 4 ∧
    (detect_illegal_construction cvOracles [] 0 "o" "n").result =
      .error .indexError :=
  ⟨by decide, rfl⟩

/-- Claim C4 (amended): with fewer than 4 matched features the target raster
is passed through co-registration unchanged, and `detect` completes without
error provided additionally — as in the specification's blank-raster
example — no contour survives the minimum-area filter. -/
theorem alignment_fallback_amended :
    (∀ (O : Oracles) (img1 img2 : Img),
      (O.orbMatches img1 img2).length < 4 →
      align_images O img1 img2 = .ok img2) ∧
    (∀ (O : Oracles) (cache : Cache) (t : ℕ) (o n : String) (b : Bands),
      List.lookup (cacheKey o n) cache = none → stage1 O o n = .ok b →
      (∀ c ∈ contoursOf O b, c.area < 50) →
      ∃ r, (detect_illegal_construction O cache t o n).result = .ok r) := by
  constructor
  · exact align_images_passthrough
  · intro O cache t o n b hm hs1 hall
    refine ⟨.noDetection, ?_⟩
    rw [detect_miss_noDet O cache t o n b hm hs1
      (stage2_noDet_of_filtered O b (Or.inl hall))]

theorem alignment_fallback_amended_witness :
    align_images trivialOracles blankImg blankImg = .ok blankImg ∧
    ∃ r, (detect_illegal_construction trivialOracles [] 0 "o" "n").result =
      .ok r :=
  ⟨alignment_fallback_amended.1 trivialOracles blankImg blankImg (by decide),
   alignment_fallback_amended.2 trivialOracles [] 0 "o" "n" blankBands rfl rfl
     (by decide)⟩

/-- Claim C6, counterexample: on a cache miss whose pipeline result is
`detected=False`, the result is returned but NOT stored under the
fingerprint (the cache stays empty), so a second call with the same
fingerprint re-invokes the anomaly scorer — refuting "on miss … its result
is stored in the cache keyed by that fingerprint". -/
theorem cache_miss_result_not_stored_cex :
    List.lookup (cacheKey "o" "n") ([] : Cache) = none ∧
    detect_illegal_construction trivialOracles [] 0 "o" "n" =
      ⟨.ok .noDetection, [], 1⟩ ∧
    (detect_illegal_construction trivialOracles [] 1 "o" "n").scorerCalls = 1 :=
  ⟨rfl, rfl, rfl⟩

/-- Claim C6 (amended): on a cache hit the stored result is returned
unchanged, with no recomputation (the scorer is not invoked and the cache is
untouched); on a miss the full pipeline runs (the scorer is invoked exactly
once), the result is returned, and it is stored under the fingerprint only
when it is a detection — a `detected=False` result leaves the cache
unchanged, so a later identical call recomputes. -/
theorem cache_behavior_amended (O : Oracles) (cache : Cache) (t : ℕ)
    (o n : String) :
    (∀ r, List.lookup (cacheKey o n) cache = some r →
      detect_illegal_construction O cache t o n = ⟨.ok r, cache, 0⟩) ∧
    (List.lookup (cacheKey o n) cache = none →
      ∀ b, stage1 O o n = .ok b →
        (detect_illegal_construction O cache t o n).scorerCalls = 1 ∧
        ((detect_illegal_construction O cache t o n).result =
            .ok .noDetection →
          (detect_illegal_construction O cache t o n).cache = cache) ∧
        (∀ bb mp ts cf pl nm bm,
          (detect_illegal_construction O cache t o n).result =
            .ok (.detection bb mp ts cf pl nm bm) →
          (detect_illegal_construction O cache t o n).cache =
            (cacheKey o n, .detection bb mp ts cf pl nm bm) :: cache)) := by
  constructor
  · intro r h
    exact detect_hit O cache t o n r h
  · intro hm b hs1
    cases h2 : stage2 O b with
    | error e =>
        rw [detect_miss_stage2_err O cache t o n b e hm hs1 h2]
        refine ⟨rfl, ?_, ?_⟩
        · intro h; simp at h
        · intro bb mp ts cf pl nm bm h; simp at h
    | ok c =>
        cases c with
        | noDet =>
            rw [detect_miss_noDet O cache t o n b hm hs1 h2]
            refine ⟨rfl, fun _ => rfl, ?_⟩
            intro bb mp ts cf pl nm bm h; simp at h
        | det bb2 cf2 pl2 nm2 bm2 =>
            rw [detect_miss_det O cache t o n b bb2 cf2 pl2 nm2 bm2 hm hs1 h2]
            refine ⟨rfl, ?_, ?_⟩
            · intro h; simp at h
            · intro bb mp ts cf pl nm bm h
              simp only [Except.ok.injEq, DetectResult.detection.injEq] at h
              obtain ⟨h1, h2a, h3, h4, h5, h6, h7⟩ := h
              subst h1; subst h2a; subst h3; subst h4; subst h5; subst h6
              subst h7
              rfl

theorem cache_behavior_amended_witness :
    detect_illegal_construction trivialOracles
      [(cacheKey "o" "n", .noDetection)] 0 "o" "n" =
      ⟨.ok .noDetection, [(cacheKey "o" "n", .noDetection)], 0⟩ ∧
    (detect_illegal_construction trivialOracles [] 0 "o" "n").scorerCalls = 1 :=
  ⟨(cache_behavior_amended trivialOracles
      [(cacheKey "o" "n", .noDetection)] 0 "o" "n").1 .noDetection rfl,
   ((cache_behavior_amended trivialOracles [] 0 "o" "n").2 rfl
      blankBands rfl).1⟩

/-- The detection-relevant payload of a result: everything except the
timestamp and the timestamped artifact path. -/
def stripTime : DetectResult → DetectResult
  | .noDetection => .noDetection
  | .detection bb _ _ cf pl nm bm => .detection bb "" "" cf pl nm bm

/-- Claim C7: `detect` is deterministic — for byte-identical inputs, the same
cache state and the fixed scorer seed (42, hard-wired at the call site), two
calls at arbitrary wall-clock times agree on the anomaly-mask-derived payload
(detected flag, bounding box, polygons, confidence, index-delta means) and on
whether the scorer ran; only the timestamp fields can differ. -/
theorem detect_deterministic (O : Oracles) (cache : Cache) (o n : String)
    (t1 t2 : ℕ) :
    (detect_illegal_construction O cache t1 o n).result.map stripTime =
      (detect_illegal_construction O cache t2 o n).result.map stripTime ∧
    (detect_illegal_construction O cache t1 o n).scorerCalls =
      (detect_illegal_construction O cache t2 o n).scorerCalls := by
  unfold detect_illegal_construction
  rcases h : detectCore O cache o n with ⟨co, k⟩
  cases co <;> simp [stripTime, Except.map]

/-- Claim C9: the batch does return one slot per zipped pair, positionally,
but — because the `async def` detection function is handed to
`asyncio.to_thread` — every slot holds the un-awaited coroutine object of its
pair, never the pair's DetectionResult and never a recorded Error value, and
no pair's pipeline runs; shown concretely on a one-pair batch and
positionally for every index. -/
theorem batch_slots_are_unawaited_coroutines :
    batch_detect ["a"] ["b"] = [.coroutine "a" "b"] ∧
    (∀ (old_b64s new_b64s : List String) (i : ℕ),
      (batch_detect old_b64s new_b64s).get? i =
        ((old_b64s.zip new_b64s).get? i).map
          (fun p => BatchSlot.coroutine p.1 p.2)) := by
  refine ⟨rfl, ?_⟩
  intro olds news i
  unfold batch_detect
  simp [List.get?_eq_getElem?, List.getElem?_map]

/-- Claim C10: whenever `detect` returns `detected=True` (with contour
bounding rectangles inside the 512×512 tile, as `cv2.boundingRect` on a
512×512 mask guarantees, and a cache whose stored detections satisfy the same
invariant), the returned pixel bounding box `[x_min, y_min, x_max, y_max]`
satisfies `0 ≤ x_min < x_max ≤ 512` and `0 ≤ y_min < y_max ≤ 512` (the lower
bounds are inherent to the ℕ coordinates). -/
theorem detected_bbox_within_tile (O : Oracles) (cache : Cache) (t : ℕ)
    (o n : String) (x0 y0 x1 y1 : ℕ) (mp ts : String) (cf : ℚ)
    (pl : List Polygon) (nm bm : ℚ)
    (hrect : ∀ (m : BGrid), ∀ c ∈ O.findContours m,
      c.x + c.w ≤ 512 ∧ c.y + c.h ≤ 512)
    (hcache : ∀ (kk : String) (a0 b0 a1 b1 : ℕ) (mp2 ts2 : String) (cf2 : ℚ)
      (pl2 : List Polygon) (nm2 bm2 : ℚ),
      List.lookup kk cache =
        some (.detection (a0, b0, a1, b1) mp2 ts2 cf2 pl2 nm2 bm2) →
      a0 < a1 ∧ a1 ≤ 512 ∧ b0 < b1 ∧ b1 ≤ 512)
    (hres : (detect_illegal_construction O cache t o n).result =
      .ok (.detection (x0, y0, x1, y1) mp ts cf pl nm bm)) :
    x0 < x1 ∧ x1 ≤ 512 ∧ y0 < y1 ∧ y1 ≤ 512 := by
  cases hlk : List.lookup (cacheKey o n) cache with
  | some r =>
      rw [detect_hit O cache t o n r hlk] at hres
      simp only [Except.ok.injEq] at hres
      subst hres
      exact hcache _ x0 y0 x1 y1 mp ts cf pl nm bm hlk
  | none =>
      cases hs1 : stage1 O o n with
      | error e =>
          rw [detect_miss_err O cache t o n e hlk hs1] at hres
          simp at hres
      | ok b =>
          cases h2 : stage2 O b with
          | error e =>
              rw [detect_miss_stage2_err O cache t o n b e hlk hs1 h2] at hres
              simp at hres
          | ok c =>
              cases c with
              | noDet =>
                  rw [detect_miss_noDet O cache t o n b hlk hs1 h2] at hres
                  simp at hres
              | det bb2 cf2 pl2 nm2 bm2 =>
                  rw [detect_miss_det O cache t o n b bb2 cf2 pl2 nm2 bm2
                    hlk hs1 h2] at hres
                  simp only [Except.ok.injEq, DetectResult.detection.injEq] at hres
                  obtain ⟨hbb, _, _, _, _, _, _⟩ := hres
                  obtain ⟨_, acc, hrf, hdeg, hbb2⟩ :=
                    stage2_det_inv O b bb2 cf2 pl2 nm2 bm2 h2
                  have hbounds := region_fold_bounds O (contoursOf O b)
                    regionInit acc (fun c hc => hrect (maskOf O b) c hc)
                    (by norm_num [regionInit]) (by norm_num [regionInit]) hrf
                  rw [hbb2] at hbb
                  simp only [Prod.mk.injEq] at hbb
                  obtain ⟨e0, e1, e2, e3⟩ := hbb
                  subst e0; subst e1; subst e2; subst e3
                  push_neg at hdeg
                  exact ⟨hdeg.1, hbounds.1, hdeg.2, hbounds.2⟩

theorem detected_bbox_within_tile_witness :
    10 < 30 ∧ 30 ≤ 512 ∧ 10 < 30 ∧ 30 ≤ 512 :=
  detected_bbox_within_tile detOracles [] 0 "o" "n" 10 10 30 30
    "static/masks/mask_0.png" "0" (-1) [[[[0, 0], [1, 1]]]] 0 0
    (fun m c hc => by
      have hc2 : c = ⟨100, 10, 10, 20, 20⟩ := List.mem_singleton.mp hc
      rw [hc2]
      exact ⟨by norm_num, by norm_num⟩)
    (fun kk a0 b0 a1 b1 mp2 ts2 cf2 pl2 nm2 bm2 h => by simp at h)
    detect_detOracles_result

end DetectChange

namespace AppGeo

/-- The module-level default `INDORE_BBOX` of `backend/app.py` line 51. -/
def INDORE_BBOX_default : ℚ × ℚ × ℚ × ℚ := (7574/100, 2258/100, 7602/100, 2284/100)

/-- The `INDORE_BBOX` of `backend/configa_h.py` line 18, which replaces the
default when that module imports successfully (`app.py` lines 234-244). -/
def INDORE_BBOX_config : ℚ × ℚ × ℚ × ℚ :=
  (758895/10000, 227525/10000, 759150/10000, 227700/10000)

/-- `_px_to_ll` (`backend/app.py` lines 350-354).  The Python function reads
the module-global `INDORE_BBOX`; here that global is threaded as the `bbox`
parameter.  Returns `(lat, lng)`. -/
def _px_to_ll (bbox : ℚ × ℚ × ℚ × ℚ) (cx cy : ℚ) : ℚ × ℚ :=
  let minx := bbox.1
  let miny := bbox.2.1
  let maxx := bbox.2.2.1
  let maxy := bbox.2.2.2
  (miny + (cy / 512) * (maxy - miny), minx + (cx / 512) * (maxx - minx))

/-- The latitude formula exactly as the specification words it:
`lat = minLat + (cy / H) × (maxLat − minLat)` with `H = 512`. -/
def latSpec (bbox : ℚ × ℚ × ℚ × ℚ) (cy : ℚ) : ℚ :=
  bbox.2.1 + (cy / 512) * (bbox.2.2.2 - bbox.2.1)

/-- The longitude formula exactly as the specification words it:
`lon = minLon + (cx / W) × (maxLon − minLon)` with `W = 512`. -/
def lonSpec (bbox : ℚ × ℚ × ℚ × ℚ) (cx : ℚ) : ℚ :=
  bbox.1 + (cx / 512) * (bbox.2.2.1 - bbox.1)

/-- Claim C8: for every pixel coordinate `(cx, cy)` in the 512×512 tile and
the configured geographic bounding box `(minLon, minLat, maxLon, maxLat)`,
the pixel-to-geo mapping `_px_to_ll` returns exactly
`lat = minLat + (cy / 512) × (maxLat − minLat)` and
`lon = minLon + (cx / 512) × (maxLon − minLon)`. -/
theorem px_to_ll_is_linear_interpolation (bbox : ℚ × ℚ × ℚ × ℚ) (cx cy : ℚ) :
    _px_to_ll bbox cx cy = (latSpec bbox cy, lonSpec bbox cx) := rfl

end AppGeo
